import Mathlib

/-!
Shallow embedding of the mtf-rs Microsoft-Tape-Format reader
(src/lib.rs and src/mdf.rs) and proofs about it.

Conventions of the embedding:
* byte slices become `List Nat`, each element is normalised `% 256` at
  every read site (`byteAt`), matching `u8`;
* machine integers become `Nat`; the few places where Rust overflow or
  underflow semantics can fire (debug-mode checked arithmetic, slice
  indexing) are modelled explicitly as panics;
* fallible Rust code (`Result`, `?`, `unwrap`, `assert!`, indexing)
  returns `Except PErr _`; `PErr.panic` models a Rust panic (assert
  failure, `unimplemented!()`, checked-arithmetic overflow, out-of-range
  index), `PErr.err k` models a `failure::Error` value propagated with
  `?`, classified by the spec's error taxonomy (section 7);
* loops whose cursor provably advances are written with an explicit
  fuel argument chosen large enough that exhaustion coincides with the
  read-off-the-end error the Rust loop would hit at that position.
-/

namespace MTF

/-- Error taxonomy of spec section 7 for propagated `failure::Error`s. -/
inductive ErrKind where
  | io
  | badTag
  | badFlags
  | dependency
  | encoding
deriving DecidableEq, Repr

/-- Outcome of fallible code: a Rust panic or a propagated error value. -/
inductive PErr where
  | panic
  | err : ErrKind → PErr
deriving DecidableEq, Repr

/-- Byte read from a byte list; reads are normalised to `u8` range. -/
def byteAt (b : List Nat) (i : Nat) : Nat := b.getD i 0 % 256

/-- Little-endian `u16` at offset `i` of an in-memory buffer. -/
def leU16b (b : List Nat) (i : Nat) : Nat := byteAt b i + 256 * byteAt b (i + 1)

/-- Little-endian `u32` at offset `i` of an in-memory buffer. -/
def leU32b (b : List Nat) (i : Nat) : Nat :=
  leU16b b i + 65536 * leU16b b (i + 2)

/-- Little-endian `u64` at offset `i` of an in-memory buffer. -/
def leU64b (b : List Nat) (i : Nat) : Nat :=
  leU32b b i + 4294967296 * leU32b b (i + 4)

/-- Cursor `read_exact(n)` at position `pos`: the `n`-byte slice, or
none when the read runs off the end (`UnexpectedEnd`). -/
def readBytes (data : List Nat) (pos n : Nat) : Option (List Nat) :=
  if pos + n ≤ data.length then some ((data.drop pos).take n) else none

/-- The whole byte list split into little-endian 16-bit words, exactly
as the `while let Ok(new_word) = read_u16` loops of `DBLK::parse` and
`Stream::parse` consume it (a trailing odd byte is dropped). -/
def leWords : List Nat → List Nat
  | b0 :: b1 :: rest => (b0 % 256 + 256 * (b1 % 256)) :: leWords rest
  | _ => []

/-- The shift-register loop of the checksum computation: state is
`(checksum, word)`, and each read word `w` does
`checksum ^= word; word = w`. -/
def shiftRegister : Nat → Nat → List Nat → Nat × Nat
  | c, w, [] => (c, w)
  | c, w, nw :: rest => shiftRegister (c ^^^ w) nw rest

/-- The checksum value the parser computes over a header buffer. -/
def shiftChecksum (hd : List Nat) : Nat := (shiftRegister 0 0 (leWords hd)).1

/-- XOR of a list of words (order-independent reference form). -/
def xorAll (l : List Nat) : Nat := l.foldr (fun a b => a ^^^ b) 0

/-- One UTF-8 decoding step: `some rest` when the list starts with a
well-formed scalar-value encoding, following the exact ranges that
`String::from_utf8` accepts. -/
def utf8Step : List Nat → Option (List Nat)
  | [] => none
  | b :: rest =>
    if b ≤ 0x7F then some rest
    else if 0xC2 ≤ b ∧ b ≤ 0xDF then
      match rest with
      | c1 :: r => if 0x80 ≤ c1 ∧ c1 ≤ 0xBF then some r else none
      | [] => none
    else if b = 0xE0 then
      match rest with
      | c1 :: c2 :: r =>
        if (0xA0 ≤ c1 ∧ c1 ≤ 0xBF) ∧ (0x80 ≤ c2 ∧ c2 ≤ 0xBF) then some r else none
      | _ => none
    else if (0xE1 ≤ b ∧ b ≤ 0xEC) ∨ b = 0xEE ∨ b = 0xEF then
      match rest with
      | c1 :: c2 :: r =>
        if (0x80 ≤ c1 ∧ c1 ≤ 0xBF) ∧ (0x80 ≤ c2 ∧ c2 ≤ 0xBF) then some r else none
      | _ => none
    else if b = 0xED then
      match rest with
      | c1 :: c2 :: r =>
        if (0x80 ≤ c1 ∧ c1 ≤ 0x9F) ∧ (0x80 ≤ c2 ∧ c2 ≤ 0xBF) then some r else none
      | _ => none
    else if b = 0xF0 then
      match rest with
      | c1 :: c2 :: c3 :: r =>
        if (0x90 ≤ c1 ∧ c1 ≤ 0xBF) ∧ (0x80 ≤ c2 ∧ c2 ≤ 0xBF) ∧ (0x80 ≤ c3 ∧ c3 ≤ 0xBF)
        then some r else none
      | _ => none
    else if 0xF1 ≤ b ∧ b ≤ 0xF3 then
      match rest with
      | c1 :: c2 :: c3 :: r =>
        if (0x80 ≤ c1 ∧ c1 ≤ 0xBF) ∧ (0x80 ≤ c2 ∧ c2 ≤ 0xBF) ∧ (0x80 ≤ c3 ∧ c3 ≤ 0xBF)
        then some r else none
      | _ => none
    else if b = 0xF4 then
      match rest with
      | c1 :: c2 :: c3 :: r =>
        if (0x80 ≤ c1 ∧ c1 ≤ 0x8F) ∧ (0x80 ≤ c2 ∧ c2 ≤ 0xBF) ∧ (0x80 ≤ c3 ∧ c3 ≤ 0xBF)
        then some r else none
      | _ => none
    else none

/-- UTF-8 validity loop; the fuel equals the list length at the top
call and each step consumes at least one byte, so exhaustion never
decides a real input. -/
def utf8ValidAux : Nat → List Nat → Bool
  | _, [] => true
  | 0, _ :: _ => false
  | f + 1, b :: rest =>
    match utf8Step (b :: rest) with
    | none => false
    | some r => utf8ValidAux f r

/-- Whether `String::from_utf8` accepts the byte list. -/
def utf8Valid (l : List Nat) : Bool := utf8ValidAux l.length l

/-- UTF-16 validity loop over code units (`String::from_utf16`
rejects exactly unpaired surrogates). -/
def utf16ValidAux : Nat → List Nat → Bool
  | _, [] => true
  | 0, _ :: _ => false
  | f + 1, u :: rest =>
    if u < 0xD800 ∨ 0xE000 ≤ u then utf16ValidAux f rest
    else if u ≤ 0xDBFF then
      match rest with
      | v :: r => if 0xDC00 ≤ v ∧ v ≤ 0xDFFF then utf16ValidAux f r else false
      | [] => false
    else false

/-- Whether `String::from_utf16` accepts the code-unit list. -/
def utf16Valid (l : List Nat) : Bool := utf16ValidAux l.length l

/-! Stream codec (src/lib.rs, `StreamHeader`, `Stream::parse`,
`Stream::parse_all`).  Rust `String` identifiers are represented by
their byte lists. -/

/-- ASCII bytes of the ten DBLK kind tags and the two stream ids the
codec compares against. -/
def tagTAPE : List Nat := [0x54, 0x41, 0x50, 0x45]

def tagSSET : List Nat := [0x53, 0x53, 0x45, 0x54]

def tagVOLB : List Nat := [0x56, 0x4F, 0x4C, 0x42]

def tagDIRB : List Nat := [0x44, 0x49, 0x52, 0x42]

def tagFILE : List Nat := [0x46, 0x49, 0x4C, 0x45]

def tagCFIL : List Nat := [0x43, 0x46, 0x49, 0x4C]

def tagESPB : List Nat := [0x45, 0x53, 0x50, 0x42]

def tagESET : List Nat := [0x45, 0x53, 0x45, 0x54]

def tagEOTM : List Nat := [0x45, 0x4F, 0x54, 0x4D]

def tagSFMB : List Nat := [0x53, 0x46, 0x4D, 0x42]

def tagSPAD : List Nat := [0x53, 0x50, 0x41, 0x44]

/-- The sentinel match of `Stream::parse`: ids equal to a DBLK kind
tag signal end-of-streams for the current DBLK. -/
def isDBLKTag (id : List Nat) : Bool :=
  id = tagTAPE ∨ id = tagSSET ∨ id = tagVOLB ∨ id = tagDIRB ∨ id = tagFILE ∨
    id = tagCFIL ∨ id = tagESPB ∨ id = tagESET ∨ id = tagEOTM ∨ id = tagSFMB

/-- The four id bytes of a header buffer, as `id.to_le_bytes()` of the
little-endian `u32` read from its first four bytes. -/
def idLEBytes (hd : List Nat) : List Nat :=
  [byteAt hd 0, byteAt hd 1, byteAt hd 2, byteAt hd 3]

/-- `StreamHeader` (bitflag fields keep their validated raw value). -/
structure StreamHeader where
  id : List Nat
  file_system_attributes : Nat
  media_format_attributes : Nat
  length : Nat
  encryption_algorithm : Nat
  compression_algorithm : Nat
deriving DecidableEq, Repr

/-- `Stream`: parsed header plus the payload base offset. -/
structure Stream where
  header : StreamHeader
  base : Nat
deriving DecidableEq, Repr

/-- Defined bits of `FileSystemAttributes` (bits 0..3). -/
def fsAttrMask : Nat := 0xF

/-- Defined bits of `MediaFormatAttributes` (bits 0..8). -/
def mfAttrMask : Nat := 0x1FF

/-- `Stream::parse`: decode one 22-byte stream header at `pos`.
Returns the optional stream and the cursor position on success
(`none` with the original position when the id is a DBLK kind tag). -/
def Stream.parse (data : List Nat) (pos : Nat) : Except PErr (Option Stream × Nat) :=
  let orig := pos
  match readBytes data pos 22 with
  | none => .error (.err .io)
  | some hd =>
    let base := pos + 22
    let checksum := shiftChecksum hd
    let id := idLEBytes hd
    if ¬ utf8Valid id then .error (.err .encoding)
    else if isDBLKTag id then .ok (none, orig)
    else
      let fsa := leU16b hd 4
      if ¬ (fsa &&& fsAttrMask = fsa) then .error (.err .badFlags)
      else
        let mfa := leU16b hd 6
        if ¬ (mfa &&& mfAttrMask = mfa) then .error (.err .badFlags)
        else
          let length := leU64b hd 8
          let encryption_algorithm := leU16b hd 16
          let compression_algorithm := leU16b hd 18
          let header_checksum := leU16b hd 20
          if ¬ (header_checksum = checksum) then .error .panic
          else
            .ok (some ⟨⟨id, fsa, mfa, length, encryption_algorithm,
              compression_algorithm⟩, base⟩, base)

/-- The cursor position `Stream::parse_all` sets after a stream whose
payload starts at `old_position` (= position just past the 22-byte
header) with `length` payload bytes: advance past the payload, then pad
to the next 4-byte-aligned absolute position. -/
def nextStreamPos (old_position length : Nat) : Nat :=
  let nw := old_position + length
  let left_over := nw % 4
  let padding := if left_over > 0 then 4 - left_over else 0
  nw + padding

/-- Loop body of `Stream::parse_all` with the collected streams as
accumulator; the fuel is `data.length + 22 - pos` at the top call, and
each iteration advances `pos` by at least 23 while a successful parse
needs `pos + 22 ≤ data.length`, so when the fuel runs out the position
is past the end and the Rust loop would fail the same `read_exact`.
The source's re-check of the position right after `set_position` can
never fire (a `std::io::Cursor` accepts any position and reports it
back), so that dead break is not modelled. -/
def Stream.parseAllAux (data : List Nat) :
    Nat → Nat → List Stream → Except PErr (List Stream × Nat)
  | 0, _, _ => .error (.err .io)
  | fuel + 1, pos, streams =>
    match Stream.parse data pos with
    | .error e => .error e
    | .ok (none, p) => .ok ([], p)
    | .ok (some new_stream, p) =>
      let old_position := p
      let nw := old_position + new_stream.header.length
      let left_over := nw % 4
      let padding := if left_over > 0 then 4 - left_over else 0
      if nw + padding = old_position then .ok (streams, old_position)
      else
        let streams' := streams ++ [new_stream]
        if new_stream.header.id = tagSPAD then .ok (streams', nw + padding)
        else Stream.parseAllAux data fuel (nw + padding) streams'

/-- `Stream::parse_all`: all streams of one DBLK and the final cursor
position. -/
def Stream.parseAll (data : List Nat) (pos : Nat) : Except PErr (List Stream × Nat) :=
  Stream.parseAllAux data (data.length + 22 - pos) pos []

/-! DBLK codec (src/lib.rs, `DBLK::parse` and its satellite types). -/

/-- `DBLKType::parse`, keyed on the little-endian `u32` kind tag. -/
inductive DBLKType where
  | TAPE | SSET | VOLB | DIRB | FILE | CFIL | ESPB | ESET | EOTM | SFMB | UNKNOWN
deriving DecidableEq, Repr

/-- Tag dispatch of `DBLKType::parse`. -/
def DBLKType.parse (ty : Nat) : DBLKType :=
  if ty = 0x45504154 then .TAPE
  else if ty = 0x54455353 then .SSET
  else if ty = 0x424C4F56 then .VOLB
  else if ty = 0x42524944 then .DIRB
  else if ty = 0x454C4946 then .FILE
  else if ty = 0x4C494643 then .CFIL
  else if ty = 0x42505345 then .ESPB
  else if ty = 0x54455345 then .ESET
  else if ty = 0x4D544F45 then .EOTM
  else if ty = 0x424D4653 then .SFMB
  else .UNKNOWN

/-- `StringType::parse` tag values. -/
inductive StringType where
  | NO_STRINGS | ANSI_STR | UNICODE_STR
deriving DecidableEq, Repr

/-- `StringType::parse`: 0, 1, 2 are valid, anything else errors. -/
def StringType.parse (ty : Nat) : Except PErr StringType :=
  if ty = 0 then .ok .NO_STRINGS
  else if ty = 1 then .ok .ANSI_STR
  else if ty = 2 then .ok .UNICODE_STR
  else .error (.err .badTag)

/-- `StringType::bytes_to_string`; the decoded Rust `String` is
represented by its validated byte list (ANSI) or code-unit list
(UTF-16, after `chunks_exact(2)` little-endian pairing). -/
def StringType.bytes_to_string (ty : StringType) (bs : List Nat) : Except PErr (List Nat) :=
  match ty with
  | .NO_STRINGS => .error (.err .encoding)
  | .ANSI_STR => if utf8Valid bs then .ok bs else .error (.err .encoding)
  | .UNICODE_STR =>
    let units := leWords bs
    if utf16Valid units then .ok units else .error (.err .encoding)

/-- `OS::parse` (total). -/
inductive OS where
  | NetWare | NetWareSMS | WindowsNT | DOS_Windows3_X | OS2 | Windows95
  | Macintosh | Unix | ToBeAssigned | VendorSpecific
deriving DecidableEq, Repr

/-- OS identifier dispatch of `OS::parse`. -/
def OS.parse (os : Nat) : OS :=
  if os = 1 then .NetWare
  else if os = 13 then .NetWareSMS
  else if os = 14 then .WindowsNT
  else if os = 24 then .DOS_Windows3_X
  else if os = 25 then .OS2
  else if os = 26 then .Windows95
  else if os = 27 then .Macintosh
  else if os = 28 then .Unix
  else if 33 ≤ os ∧ os ≤ 127 then .ToBeAssigned
  else .VendorSpecific

/-- `MediaBasedCatalogType::parse` values. -/
inductive MediaBasedCatalogType where
  | NONE | TYPE_1 | TYPE_2 | UNKNOWN3
deriving DecidableEq, Repr

/-- Catalog-type dispatch; values above 3 error. -/
def MediaBasedCatalogType.parse (ty : Nat) : Except PErr MediaBasedCatalogType :=
  if ty = 0 then .ok .NONE
  else if ty = 1 then .ok .TYPE_1
  else if ty = 2 then .ok .TYPE_2
  else if ty = 3 then .ok .UNKNOWN3
  else .error (.err .badTag)

/-- `DateTime::parse`: the 40-bit packed date-time, bytes widened to
16 bits before shifting. -/
structure DateTime where
  year : Nat
  month : Nat
  day : Nat
  hour : Nat
  minute : Nat
  second : Nat
deriving DecidableEq, Repr

/-- Bit extraction of `DateTime::parse` over five bytes. -/
def DateTime.parse (d0 d1 d2 d3 d4 : Nat) : DateTime :=
  { year := (d0 <<< 6) ||| (d1 >>> 2)
    month := ((d1 &&& 0b11) <<< 2) ||| (d2 >>> 6)
    day := (d2 >>> 1) &&& 0b11111
    hour := ((d2 &&& 0b1) <<< 4) ||| (d3 >>> 4)
    minute := ((d3 &&& 0b1111) <<< 2) ||| (d4 >>> 6)
    second := d4 &&& 0b111111 }

/-- `TapeAddress`: in-block string pointer with the block base. -/
structure TapeAddress where
  size : Nat
  offset : Nat
  base : Nat
deriving DecidableEq, Repr

/-- `TapeAddress::parse`: low 16 bits are the size, high 16 the
offset. -/
def TapeAddress.parse (tape_address base : Nat) : TapeAddress :=
  ⟨tape_address % 65536, tape_address / 65536 % 65536, base⟩

/-- `TapeAddress::read_str`: saves the cursor, reads `size` bytes at
`base + offset`, restores the cursor, decodes per the block string
type (so the caller's position is unchanged on success). -/
def TapeAddress.read_str (ta : TapeAddress) (ty : StringType) (data : List Nat) :
    Except PErr (Option (List Nat)) :=
  if 0 < ta.size then
    match readBytes data (ta.base + ta.offset) ta.size with
    | none => .error (.err .io)
    | some str_data =>
      match ty.bytes_to_string str_data with
      | .error e => .error e
      | .ok s => .ok (some s)
  else .ok none

/-- Defined bits of the common block attributes by kind
(`CommonBlockAttrsAny`/`TAPE`/`SSET`/`ESET`/`EOTM`). -/
inductive CommonBlockAttrs where
  | ANY : Nat → CommonBlockAttrs
  | TAPE : Nat → CommonBlockAttrs
  | SSET : Nat → CommonBlockAttrs
  | ESET : Nat → CommonBlockAttrs
  | EOTM : Nat → CommonBlockAttrs
deriving DecidableEq, Repr

/-- `CommonBlockAttrs::parse`: `from_bits` succeeds exactly when no
bit outside the kind's mask is set. -/
def CommonBlockAttrs.parse (attrs : Nat) (ty : DBLKType) : Except PErr CommonBlockAttrs :=
  match ty with
  | .TAPE => if attrs &&& 0x3000D = attrs then .ok (.TAPE attrs) else .error (.err .badFlags)
  | .SSET => if attrs &&& 0x3000D = attrs then .ok (.SSET attrs) else .error (.err .badFlags)
  | .ESET => if attrs &&& 0x7000D = attrs then .ok (.ESET attrs) else .error (.err .badFlags)
  | .EOTM => if attrs &&& 0x3000D = attrs then .ok (.EOTM attrs) else .error (.err .badFlags)
  | _ => if attrs &&& 0xD = attrs then .ok (.ANY attrs) else .error (.err .badFlags)

/-- `CommonBlockHeader`: the decoded 52-byte common header. -/
structure CommonBlockHeader where
  attrs : CommonBlockAttrs
  offset_to_first_event : Nat
  osid : OS
  osver : Nat
  display_size : Nat
  format_logical_address : Nat
  control_block_id : Nat
  os_specific_data : TapeAddress
  string_type : StringType
  header_checksum : Nat
deriving DecidableEq, Repr

/-- `DBLKSpecific::TAPE` body fields (`soft_filemark_block_size` keeps
the raw block count; `bytes()` is `512 *` it). -/
structure TAPEBody where
  media_family_id : Nat
  tape_attrs : Nat
  media_sequence_number : Nat
  password_encryption_algorithm : Nat
  soft_filemark_block_size : Nat
  media_based_catalog_type : MediaBasedCatalogType
  media_name : Option (List Nat)
  media_description : Option (List Nat)
  media_password : Option (List Nat)
  software_name : Option (List Nat)
  format_logical_block_size : Nat
  software_vendor_id : Nat
  media_date : DateTime
  major_version : Nat
deriving DecidableEq, Repr

/-- `DBLKSpecific::SSET` body fields. -/
structure SSETBody where
  attrs : Nat
  password_encryption_algorithm : Nat
  software_compression_algorithm : Nat
  software_vendor_id : Nat
  data_set_number : Nat
  data_set_name : Option (List Nat)
  data_set_description : Option (List Nat)
  data_set_password : Option (List Nat)
  username : Option (List Nat)
  physical_block_address : Nat
  write_date : DateTime
  software_major_version : Nat
  software_minor_version : Nat
  timezone : Nat
  minor_version : Nat
  media_catalog_version : Nat
deriving DecidableEq, Repr

/-- `DBLKSpecific::VOLB` body fields. -/
structure VOLBBody where
  attrs : Nat
  device_name : Option (List Nat)
  volume_name : Option (List Nat)
  machine_name : Option (List Nat)
  write_date : DateTime
deriving DecidableEq, Repr

/-- `DBLKSpecific::SFMB` body fields. -/
structure SFMBBody where
  number_of_entries : Nat
  used_entries : Nat
  entries : List Nat
deriving DecidableEq, Repr

/-- `DBLKSpecific`: the kind-specific block body. -/
inductive DBLKSpecific where
  | TAPE : TAPEBody → DBLKSpecific
  | SSET : SSETBody → DBLKSpecific
  | VOLB : VOLBBody → DBLKSpecific
  | DIRB
  | FILE
  | CFIL
  | ESPB
  | ESET
  | EOTM
  | SFMB : SFMBBody → DBLKSpecific
  | UNKNOWN : List Nat → DBLKSpecific
deriving DecidableEq, Repr

/-- Parsed `DBLK`: common header plus body. -/
structure DBLK where
  header : CommonBlockHeader
  body : DBLKSpecific
deriving DecidableEq, Repr

/-- `DBLKSets`: the latest-seen blocks kept as cross-block context. -/
structure DBLKSets where
  tape : Option DBLK
  set : Option DBLK
  vol : Option DBLK
  dir : Option DBLK
  file : Option DBLK
  soft_mark : Option DBLK
deriving DecidableEq, Repr

/-- The empty context `MTFParser::new` starts from. -/
def DBLKSets.empty : DBLKSets := ⟨none, none, none, none, none, none⟩

/-- `DBLKSets::update`. -/
def DBLKSets.update (s : DBLKSets) (dblk : DBLK) : DBLKSets :=
  match dblk.body with
  | .TAPE _ => { s with tape := some dblk }
  | .SSET _ => { s with set := some dblk }
  | .VOLB _ => { s with vol := some dblk }
  | .DIRB => { s with dir := some dblk }
  | .FILE => { s with file := some dblk }
  | .SFMB _ => { s with soft_mark := some dblk }
  | _ => s

/-- Cursor `read_u8`. -/
def rdU8 (data : List Nat) (pos : Nat) : Except PErr (Nat × Nat) :=
  if pos + 1 ≤ data.length then .ok (byteAt data pos, pos + 1) else .error (.err .io)

/-- Cursor `read_u16::<LittleEndian>`. -/
def rdU16 (data : List Nat) (pos : Nat) : Except PErr (Nat × Nat) :=
  if pos + 2 ≤ data.length then
    .ok (byteAt data pos + 256 * byteAt data (pos + 1), pos + 2)
  else .error (.err .io)

/-- Little-endian `u32` read directly from the mapped input at `pos`. -/
def leU32at (data : List Nat) (pos : Nat) : Nat :=
  byteAt data pos + 256 * byteAt data (pos + 1) + 65536 * byteAt data (pos + 2) +
    16777216 * byteAt data (pos + 3)

/-- Cursor `read_u32::<LittleEndian>`. -/
def rdU32 (data : List Nat) (pos : Nat) : Except PErr (Nat × Nat) :=
  if pos + 4 ≤ data.length then .ok (leU32at data pos, pos + 4)
  else .error (.err .io)

/-- Cursor `read_u64::<LittleEndian>`. -/
def rdU64 (data : List Nat) (pos : Nat) : Except PErr (Nat × Nat) :=
  if pos + 8 ≤ data.length then
    .ok (leU64b ((data.drop pos).take 8) 0, pos + 8)
  else .error (.err .io)

/-- Cursor `read_exact` into an `n`-byte buffer. -/
def rdBytes (data : List Nat) (pos n : Nat) : Except PErr (List Nat × Nat) :=
  match readBytes data pos n with
  | none => .error (.err .io)
  | some bs => .ok (bs, pos + n)

/-- Helper of the TAPE/SSET/VOLB arms: read a `u32` tape address and
resolve it against the block string type (cursor position preserved by
`read_str`). -/
def rdStr (data : List Nat) (pos base : Nat) (ty : StringType) :
    Except PErr (Option (List Nat) × Nat) :=
  match rdU32 data pos with
  | .error e => .error e
  | .ok (raw, pos') =>
    match (TapeAddress.parse raw base).read_str ty data with
    | .error e => .error e
    | .ok s => .ok (s, pos')

/-- TAPE body arm of `DBLK::parse` (including the
`format_logical_address`/`control_block_id` zero assertions done just
before it). -/
def DBLK.parseTAPE (base : Nat) (header : CommonBlockHeader) (data : List Nat)
    (pos : Nat) : Except PErr (DBLKSpecific × Nat) :=
  if ¬ (header.format_logical_address = 0) then .error .panic
  else if ¬ (header.control_block_id = 0) then .error .panic
  else
    match rdU32 data pos with
    | .error e => .error e
    | .ok (media_family_id, pos) =>
    match rdU32 data pos with
    | .error e => .error e
    | .ok (tape_attrs, pos) =>
    if ¬ (tape_attrs &&& 0x7 = tape_attrs) then .error (.err .badFlags)
    else
    match rdU16 data pos with
    | .error e => .error e
    | .ok (media_sequence_number, pos) =>
    match rdU16 data pos with
    | .error e => .error e
    | .ok (password_encryption_algorithm, pos) =>
    match rdU16 data pos with
    | .error e => .error e
    | .ok (soft_filemark_block_size, pos) =>
    match rdU16 data pos with
    | .error e => .error e
    | .ok (mbct_raw, pos) =>
    match MediaBasedCatalogType.parse mbct_raw with
    | .error e => .error e
    | .ok media_based_catalog_type =>
    match rdStr data pos base header.string_type with
    | .error e => .error e
    | .ok (media_name, pos) =>
    match rdStr data pos base header.string_type with
    | .error e => .error e
    | .ok (media_description, pos) =>
    match rdStr data pos base header.string_type with
    | .error e => .error e
    | .ok (media_password, pos) =>
    match rdStr data pos base header.string_type with
    | .error e => .error e
    | .ok (software_name, pos) =>
    match rdU16 data pos with
    | .error e => .error e
    | .ok (format_logical_block_size, pos) =>
    match rdU16 data pos with
    | .error e => .error e
    | .ok (software_vendor_id, pos) =>
    match rdBytes data pos 5 with
    | .error e => .error e
    | .ok (md, pos) =>
    match rdU8 data pos with
    | .error e => .error e
    | .ok (major_version, pos) =>
      .ok (.TAPE ⟨media_family_id, tape_attrs, media_sequence_number,
        password_encryption_algorithm, soft_filemark_block_size,
        media_based_catalog_type, media_name, media_description, media_password,
        software_name, format_logical_block_size, software_vendor_id,
        DateTime.parse (byteAt md 0) (byteAt md 1) (byteAt md 2) (byteAt md 3)
          (byteAt md 4), major_version⟩, pos)

/-- SSET body arm of `DBLK::parse`.  The `i8` timezone keeps its raw
byte value. -/
def DBLK.parseSSET (base : Nat) (header : CommonBlockHeader) (data : List Nat)
    (pos : Nat) : Except PErr (DBLKSpecific × Nat) :=
  match rdU32 data pos with
  | .error e => .error e
  | .ok (attrs, pos) =>
  if ¬ (attrs &&& 0x3F = attrs) then .error (.err .badFlags)
  else
  match rdU16 data pos with
  | .error e => .error e
  | .ok (password_encryption_algorithm, pos) =>
  match rdU16 data pos with
  | .error e => .error e
  | .ok (software_compression_algorithm, pos) =>
  match rdU16 data pos with
  | .error e => .error e
  | .ok (software_vendor_id, pos) =>
  match rdU16 data pos with
  | .error e => .error e
  | .ok (data_set_number, pos) =>
  match rdStr data pos base header.string_type with
  | .error e => .error e
  | .ok (data_set_name, pos) =>
  match rdStr data pos base header.string_type with
  | .error e => .error e
  | .ok (data_set_description, pos) =>
  match rdStr data pos base header.string_type with
  | .error e => .error e
  | .ok (data_set_password, pos) =>
  match rdStr data pos base header.string_type with
  | .error e => .error e
  | .ok (username, pos) =>
  match rdU64 data pos with
  | .error e => .error e
  | .ok (physical_block_address, pos) =>
  match rdBytes data pos 5 with
  | .error e => .error e
  | .ok (wd, pos) =>
  match rdU8 data pos with
  | .error e => .error e
  | .ok (software_major_version, pos) =>
  match rdU8 data pos with
  | .error e => .error e
  | .ok (software_minor_version, pos) =>
  match rdU8 data pos with
  | .error e => .error e
  | .ok (timezone, pos) =>
  match rdU8 data pos with
  | .error e => .error e
  | .ok (minor_version, pos) =>
  match rdU8 data pos with
  | .error e => .error e
  | .ok (media_catalog_version, pos) =>
    .ok (.SSET ⟨attrs, password_encryption_algorithm,
      software_compression_algorithm, software_vendor_id, data_set_number,
      data_set_name, data_set_description, data_set_password, username,
      physical_block_address,
      DateTime.parse (byteAt wd 0) (byteAt wd 1) (byteAt wd 2) (byteAt wd 3)
        (byteAt wd 4),
      software_major_version, software_minor_version, timezone, minor_version,
      media_catalog_version⟩, pos)

/-- VOLB body arm of `DBLK::parse`. -/
def DBLK.parseVOLB (base : Nat) (header : CommonBlockHeader) (data : List Nat)
    (pos : Nat) : Except PErr (DBLKSpecific × Nat) :=
  match rdU32 data pos with
  | .error e => .error e
  | .ok (attrs, pos) =>
  if ¬ (attrs &&& 0x3F = attrs) then .error (.err .badFlags)
  else
  match rdStr data pos base header.string_type with
  | .error e => .error e
  | .ok (device_name, pos) =>
  match rdStr data pos base header.string_type with
  | .error e => .error e
  | .ok (volume_name, pos) =>
  match rdStr data pos base header.string_type with
  | .error e => .error e
  | .ok (machine_name, pos) =>
  match rdBytes data pos 5 with
  | .error e => .error e
  | .ok (wd, pos) =>
    .ok (.VOLB ⟨attrs, device_name, volume_name, machine_name,
      DateTime.parse (byteAt wd 0) (byteAt wd 1) (byteAt wd 2) (byteAt wd 3)
        (byteAt wd 4)⟩, pos)

/-- Little-endian `u32` decoding of a byte buffer, as
`LittleEndian::read_u32_into` fills the entries vector. -/
def leU32s : List Nat → List Nat
  | a :: b :: c :: d :: rest =>
    (a % 256 + 256 * (b % 256) + 65536 * (c % 256) + 16777216 * (d % 256)) :: leU32s rest
  | _ => []

/-- SFMB body arm of `DBLK::parse`: needs the latest TAPE block for
`soft_filemark_block_size`; its byte count minus the 60 header bytes
frames the entries table.  The `u64` subtraction underflows (panics)
when that byte count is below 60. -/
def DBLK.parseSFMB (data : List Nat) (pos : Nat) (sets : DBLKSets) :
    Except PErr (DBLKSpecific × Nat) :=
  match rdU32 data pos with
  | .error e => .error e
  | .ok (number_of_entries, pos) =>
  match rdU32 data pos with
  | .error e => .error e
  | .ok (used_entries, pos) =>
  match sets.tape with
  | none => .error (.err .dependency)
  | some tape =>
    match tape.body with
    | .TAPE tb =>
      let bytes := 512 * tb.soft_filemark_block_size
      if bytes < 60 then .error .panic
      else
        match rdBytes data pos (bytes - 60) with
        | .error e => .error e
        | .ok (entries_data, pos) =>
          .ok (.SFMB ⟨number_of_entries, used_entries, leU32s entries_data⟩, pos)
    | _ => .error (.err .dependency)

/-- Body dispatch of `DBLK::parse`; the six recognised-but-undecoded
kinds hit `unimplemented!()`, the UNKNOWN arm re-encodes the tag via
`String::from_utf8`. -/
def DBLK.parseBody (ty : DBLKType) (base : Nat) (header : CommonBlockHeader)
    (data : List Nat) (pos : Nat) (sets : DBLKSets) (idBytes : List Nat) :
    Except PErr (DBLKSpecific × Nat) :=
  match ty with
  | .TAPE => DBLK.parseTAPE base header data pos
  | .SSET => DBLK.parseSSET base header data pos
  | .VOLB => DBLK.parseVOLB base header data pos
  | .DIRB => .error .panic
  | .FILE => .error .panic
  | .CFIL => .error .panic
  | .ESPB => .error .panic
  | .ESET => .error .panic
  | .EOTM => .error .panic
  | .SFMB => DBLK.parseSFMB data pos sets
  | .UNKNOWN =>
    if utf8Valid idBytes then .ok (.UNKNOWN idBytes, pos) else .error (.err .encoding)

/-- `DBLK::parse`: read and checksum the 52-byte common header, decode
its fields (the only fallible field decodes are the attributes and the
string type, in that order, both before the checksum assert), assert
the checksum, then dispatch on the kind.  Returns the block and the
cursor position after the body. -/
def DBLK.parse (data : List Nat) (pos : Nat) (sets : DBLKSets) :
    Except PErr (DBLK × Nat) :=
  let base := pos
  match readBytes data pos 52 with
  | none => .error (.err .io)
  | some hd =>
    let checksum := shiftChecksum hd
    let ty := DBLKType.parse (leU32b hd 0)
    match CommonBlockAttrs.parse (leU32b hd 4) ty with
    | .error e => .error e
    | .ok attrs =>
      match StringType.parse (byteAt hd 48) with
      | .error e => .error e
      | .ok string_type =>
        let header_checksum := leU16b hd 50
        if ¬ (header_checksum = checksum) then .error .panic
        else
          let header : CommonBlockHeader :=
            { attrs
              offset_to_first_event := leU16b hd 8
              osid := OS.parse (byteAt hd 10)
              osver := byteAt hd 11
              display_size := leU64b hd 12
              format_logical_address := leU64b hd 20
              control_block_id := leU32b hd 36
              os_specific_data := TapeAddress.parse (leU32b hd 44) base
              string_type
              header_checksum }
          match DBLK.parseBody ty base header data (pos + 52) sets (idLEBytes hd) with
          | .error e => .error e
          | .ok (body, pos') => .ok (⟨header, body⟩, pos')

/-! DBLK-with-streams assembly and the iterator (src/lib.rs,
`DBLKWithStreams::parse`, `StreamWithData`, `DBLKIterator::next`).
Both `.unwrap()` calls turn parse errors into process panics; the
panic is modelled as `none`. -/

/-- `StreamWithData`: a stream together with its borrowed payload
slice `data[base .. min(base+length, data.len())]`. -/
structure StreamWithData where
  stream : Stream
  data : List Nat
deriving DecidableEq, Repr

/-- `StreamWithData::from_stream` (via `Stream::data`). -/
def StreamWithData.from_stream (s : Stream) (data : List Nat) : StreamWithData :=
  ⟨s, (data.drop s.base).take (min (s.base + s.header.length) data.length - s.base)⟩

/-- `DBLKWithStreams`: one iterator item. -/
structure DBLKWithStreams where
  dblk : DBLK
  streams : List StreamWithData
deriving DecidableEq, Repr

/-- `DBLKWithStreams::parse`: parse the DBLK (unwrap), update the
context, seek to `dblk_position + offset_to_first_event`, parse all
streams (unwrap).  `none` models the panic of either `unwrap`. -/
def DBLKWithStreams.parse (data : List Nat) (pos : Nat) (sets : DBLKSets) :
    Option (DBLKWithStreams × Nat × DBLKSets) :=
  let dblk_position := pos
  match DBLK.parse data pos sets with
  | .error _ => none
  | .ok (dblock, _) =>
    let sets' := sets.update dblock
    match Stream.parseAll data (dblk_position + dblock.header.offset_to_first_event) with
    | .error _ => none
    | .ok (streams, pos') =>
      some (⟨dblock, streams.map (StreamWithData.from_stream · data)⟩, pos', sets')

/-- `DBLKIterator` state: the saved byte position and the context. -/
structure IterState where
  sets : DBLKSets
  position : Nat
deriving DecidableEq, Repr

/-- `DBLKIterator::next`: outer `none` models the panic inside
`DBLKWithStreams::parse`; `some none` is iterator termination by the
no-progress guard; `some (some _)` yields an item and the new state.
The item type carries no error variant. -/
def DBLKIterator.next (data : List Nat) (st : IterState) :
    Option (Option (DBLKWithStreams × IterState)) :=
  match DBLKWithStreams.parse data st.position st.sets with
  | none => none
  | some (dblk, pos', sets') =>
    if ¬ (st.position = pos') then some (some (dblk, ⟨sets', pos'⟩))
    else some none

/-! Sparse page index over the MDF payload (src/mdf.rs,
`IndexEntry`, `MTFBackupIndex::build`, `MTFBackupIndex::lookup`).

The page decoder `PageHeader::parse_ptr` lives in the external `mdf`
crate (out of scope per spec section 1), so a payload is modelled
abstractly as its byte length plus the pointer `parse_ptr` yields at
each page-sized offset (`none` for an uninitialised page, spec
section 4.7).  The filesystem index cache of section 4.8 is modelled
as absent (fresh build): only the content-hash input slice
`data[..10 * PAGE_SIZE]` of `cache_name`, whose bounds check runs
before anything else, is kept. -/

/-- Size of one database page. -/
def PAGE_SIZE : Nat := 8192

/-- `MTFBackupIndex::DIVISOR`. -/
def DIVISOR : Nat := 1024

/-- `PagePointer` of the page header: `file_id == 0` marks an
uninitialised page. -/
structure PagePointer where
  file_id : Nat
  page_id : Nat
deriving DecidableEq, Repr

/-- Modelled from the spec: the MDF payload handed to
`MTFBackupIndex::build`, abstracted to its byte length and the result
of the external `PageHeader::parse_ptr` at each page index. -/
structure Payload where
  len : Nat
  ptrAt : Nat → Option PagePointer

/-- `IndexEntry`: run of page ids `[start, stop]` based at payload
page offset `base`. -/
structure IndexEntry where
  start : Nat
  stop : Nat
  base : Nat
deriving DecidableEq, Repr

/-- `MTFBackupIndex` (the `max_page_ids` hash map becomes an
association list in insertion order). -/
structure MTFBackupIndex where
  idx : List (List (List IndexEntry))
  outer_level_entries : Nat
  divisor : Nat
  max_page_ids : List (Nat × Nat)
deriving DecidableEq, Repr

/-- The `while idx.len() < end.file_id` growth loop of `write_entry`:
append empty outer buckets (each with `outer_level_entries` slots). -/
def growTo (idx : List (List (List IndexEntry))) (fid outer : Nat) :
    List (List (List IndexEntry)) :=
  idx ++ List.replicate (fid - idx.length) (List.replicate outer [])

/-- The `max_page_ids.entry(..).and_modify(..).or_insert(..)` update. -/
def maxpUpdate (m : List (Nat × Nat)) (fid v : Nat) : List (Nat × Nat) :=
  if m.any (fun q => q.1 = fid) then
    m.map (fun q => if q.1 = fid then (q.1, max v q.2) else q)
  else m ++ [(fid, v)]

/-- The `write_entry` closure of `MTFBackupIndex::build`: grow the
first level to cover `endP.file_id`, then push the run
`{start, stop, base}` into bucket `start.page_id / divisor` of file
`end.file_id`.  A zero `file_id` underflows the `u16` subtraction and
an out-of-range bucket index panics, exactly as the Rust indexing
does. -/
def write_entry (outer divisor : Nat) (idx : List (List (List IndexEntry)))
    (maxp : List (Nat × Nat)) (startP endP : PagePointer) (start_idx : Nat) :
    Except PErr (List (List (List IndexEntry)) × List (Nat × Nat)) :=
  if endP.file_id = 0 then .error .panic
  else
    match (growTo idx endP.file_id outer).get? (endP.file_id - 1) with
    | none => .error .panic
    | some oe =>
      match oe.get? (startP.page_id / divisor) with
      | none => .error .panic
      | some bucket =>
        .ok ((growTo idx endP.file_id outer).set (endP.file_id - 1)
          (oe.set (startP.page_id / divisor)
            (bucket ++ [⟨startP.page_id, endP.page_id, start_idx⟩])),
          maxpUpdate maxp endP.file_id endP.page_id)

/-- Loop state of the scan of `MTFBackupIndex::build`. -/
structure ScanState where
  idx : List (List (List IndexEntry))
  maxp : List (Nat × Nat)
  start : PagePointer
  old : PagePointer
  start_idx : Nat
deriving Repr

/-- One iteration of the `for i in 1..num_pages` scan: skip
uninitialised pages; on a file change or a page-id discontinuity emit
the closed run and restart it (the `old.page_id + 1` addition is `u32`
checked arithmetic, evaluated only when the file id matched). -/
def buildStep1 (p : Payload) (outer : Nat) (st : ScanState) (i : Nat) :
    Except PErr ScanState :=
  match p.ptrAt i with
  | none => .ok st
  | some nw =>
    if ¬ (st.start.file_id = nw.file_id) then
      match write_entry outer DIVISOR st.idx st.maxp st.start st.old st.start_idx with
      | .error e => .error e
      | .ok (idx', maxp') => .ok ⟨idx', maxp', nw, nw, i⟩
    else if st.old.page_id + 1 ≥ 4294967296 then .error .panic
    else if ¬ (st.old.page_id + 1 = nw.page_id) then
      match write_entry outer DIVISOR st.idx st.maxp st.start st.old st.start_idx with
      | .error e => .error e
      | .ok (idx', maxp') => .ok ⟨idx', maxp', nw, nw, i⟩
    else .ok { st with old := nw }

/-- Error-propagating wrapper of `buildStep1` for the fold. -/
def buildStep (p : Payload) (outer : Nat) (acc : Except PErr ScanState) (i : Nat) :
    Except PErr ScanState :=
  match acc with
  | .error e => .error e
  | .ok st => buildStep1 p outer st i

/-- The cache-miss path of `MTFBackupIndex::build`: scan the payload
at page stride and emit the final run. -/
def buildScan (p : Payload) : Except PErr MTFBackupIndex :=
  let num_pages := p.len / PAGE_SIZE
  let outer_level_entries := num_pages / DIVISOR
  match p.ptrAt 0 with
  | none => .error .panic
  | some start0 =>
    match (List.range' 1 (num_pages - 1)).foldl (buildStep p outer_level_entries)
        (.ok ⟨[], [], start0, start0, 0⟩) with
    | .error e => .error e
    | .ok st =>
      match write_entry outer_level_entries DIVISOR st.idx st.maxp st.start st.old
          st.start_idx with
      | .error e => .error e
      | .ok (idx, maxp) => .ok ⟨idx, outer_level_entries, DIVISOR, maxp⟩

/-- `MTFBackupIndex::build`.  `cache_name` hashes
`data[..10 * PAGE_SIZE]` before looking for a cache file, so a payload
shorter than ten pages panics on the slice immediately; with no cache
file present the index is then built by scanning. -/
def MTFBackupIndex.build (p : Payload) : Except PErr MTFBackupIndex :=
  if p.len < 10 * PAGE_SIZE then .error .panic
  else buildScan p

/-- Bucket-walk loop of `MTFBackupIndex::lookup` at probe index `i`:
an out-of-range probe index panics on `outer_entries[outer_idx]`, an
empty bucket at index 0 panics on the `outer_idx -= 1` underflow,
otherwise the bucket is scanned for the containing run; on a miss the
probe steps down, terminating with "not found" at index 0. -/
def lookupGo (oe : List (List IndexEntry)) (pid : Nat) : Nat → Except PErr (Option Nat)
  | 0 =>
    match oe.get? 0 with
    | none => .error .panic
    | some bucket =>
      if bucket.isEmpty then .error .panic
      else
        match bucket.find? (fun e => e.start ≤ pid ∧ e.stop ≥ pid) with
        | some e =>
          if e.base + pid ≥ 4294967296 then .error .panic
          else .ok (some (e.base + pid - e.start))
        | none => .ok none
  | j + 1 =>
    match oe.get? (j + 1) with
    | none => .error .panic
    | some bucket =>
      if bucket.isEmpty then lookupGo oe pid j
      else
        match bucket.find? (fun e => e.start ≤ pid ∧ e.stop ≥ pid) with
        | some e =>
          if e.base + pid ≥ 4294967296 then .error .panic
          else .ok (some (e.base + pid - e.start))
        | none => lookupGo oe pid j

/-- `MTFBackupIndex::lookup`: `(file_id - 1)` underflows for file id 0
and the first-level index panics for an unknown file id; the probe
starts at `page_id / divisor`. -/
def MTFBackupIndex.lookup (S : MTFBackupIndex) (ptr : PagePointer) :
    Except PErr (Option Nat) :=
  if ptr.file_id = 0 then .error .panic
  else
    match S.idx.get? (ptr.file_id - 1) with
    | none => .error .panic
    | some outer_entries => lookupGo outer_entries ptr.page_id (ptr.page_id / S.divisor)

/-! Concrete inputs used by the witnesses and counterexamples. -/

/-- A 50-byte stream area: a valid non-sentinel stream header with id
`MQDA` and payload length 5 (checksum word `0x100C`), its 5 payload
bytes, one alignment byte, then a 22-byte block whose id is `VOLB`. -/
def streamBytes50 : List Nat :=
  [0x4D, 0x51, 0x44, 0x41, 0, 0, 0, 0, 5, 0, 0, 0, 0, 0, 0, 0, 0, 0, 0, 0, 0x0C, 0x10] ++
    [1, 2, 3, 4, 5] ++ [0] ++
    ([0x56, 0x4F, 0x4C, 0x42] ++ List.replicate 18 0)

/-- ASCII bytes of the `MQDA` stream id. -/
def tagMQDA : List Nat := [0x4D, 0x51, 0x44, 0x41]

/-- The stream value `Stream::parse` yields at offset 0 of
`streamBytes50`. -/
def mqdaStream : Stream := ⟨⟨tagMQDA, 0, 0, 5, 0, 0⟩, 22⟩

/-- A lone 22-byte area holding a `VOLB`-tagged block. -/
def volbBytes22 : List Nat := [0x56, 0x4F, 0x4C, 0x42] ++ List.replicate 18 0

/-- A 52-byte DBLK header of zeros except `string_type = 3`
(offset 48), which is an invalid string type. -/
def badStringTypeHeader : List Nat := List.replicate 48 0 ++ [3, 0, 0, 0]

/-- A TAPE body carrying `soft_filemark_block_size = 1` (512 bytes). -/
def tapeBody512 : TAPEBody :=
  ⟨0, 0, 0, 0, 1, .NONE, none, none, none, none, 0, 0, DateTime.parse 0 0 0 0 0, 0⟩

/-- A TAPE block wrapping `tapeBody512`. -/
def tapeDBLK512 : DBLK :=
  ⟨⟨.TAPE 0, 0, .VendorSpecific, 0, 0, 0, 0, ⟨0, 0, 0⟩, .NO_STRINGS, 0⟩, .TAPE tapeBody512⟩

/-- A context whose latest TAPE block carries
`soft_filemark_block_size = 1` (512 bytes). -/
def setsWithTape : DBLKSets := ⟨some tapeDBLK512, none, none, none, none, none⟩

/-- Payload of exactly two pages `(1,7)` and `(1,8)` (scenario S6 as
literally stated). -/
def payloadS6 : Payload :=
  ⟨2 * PAGE_SIZE,
    fun i => if i = 0 then some ⟨1, 7⟩ else if i = 1 then some ⟨1, 8⟩ else none⟩

/-- The two pages `(1,7)`, `(1,8)` at the start of a 1024-page payload
whose other pages are uninitialised. -/
def payloadS6big : Payload :=
  ⟨1024 * PAGE_SIZE,
    fun i => if i = 0 then some ⟨1, 7⟩ else if i = 1 then some ⟨1, 8⟩ else none⟩

/-- The index built over `payloadS6big`. -/
def indexS6 : MTFBackupIndex := ⟨[[[⟨7, 8, 0⟩]]], 1, 1024, [(1, 8)]⟩

/-- A 2048-page payload whose only initialised page is `(1, 1500)`:
its single run lands in bucket 1, leaving bucket 0 empty. -/
def payloadBucket1 : Payload :=
  ⟨2048 * PAGE_SIZE, fun i => if i = 0 then some ⟨1, 1500⟩ else none⟩

/-- The index built over `payloadBucket1`. -/
def indexBucket1 : MTFBackupIndex :=
  ⟨[[[], [⟨1500, 1500, 0⟩]]], 2, 1024, [(1, 1500)]⟩

/-- A 1025-page payload with the single page `(1, 0)`. -/
def payload1025 : Payload :=
  ⟨1025 * PAGE_SIZE, fun i => if i = 0 then some ⟨1, 0⟩ else none⟩

/-- A 1024-page payload whose single page has the sparse id
`(1, 5000)`. -/
def payloadSparse : Payload :=
  ⟨1024 * PAGE_SIZE, fun i => if i = 0 then some ⟨1, 5000⟩ else none⟩

/-- The empty payload. -/
def payloadNil : Payload := ⟨0, fun _ => none⟩

/-- The index built over `payload1025`. -/
def index1025 : MTFBackupIndex := ⟨[[[⟨0, 0, 0⟩]]], 1, 1024, [(1, 0)]⟩

/-- Structural invariant maintained by the scan of
`MTFBackupIndex::build`: every outer bucket vector ever allocated has
exactly `outer` slots, every file id recorded in `max_page_ids` is
covered by the first level, and every entry sits in the bucket indexed
by `start / divisor`. -/
def BuildInv (outer divisor : Nat) (idx : List (List (List IndexEntry)))
    (maxp : List (Nat × Nat)) : Prop :=
  (∀ oe ∈ idx, oe.length = outer) ∧
  (∀ q ∈ maxp, q.1 ≤ idx.length) ∧
  (∀ oe ∈ idx, ∀ b bucket, oe.get? b = some bucket → ∀ e ∈ bucket, e.start / divisor = b)

/-- Whether an `Except` value is a success. -/
def exceptIsOk {ε α : Type} : Except ε α → Bool
  | .ok _ => true
  | .error _ => false

/-- The two fallible field decodes of the 52-byte DBLK header
(attributes, string type), which run before the checksum assert. -/
def dblkHeaderFieldsOk (hd : List Nat) : Bool :=
  exceptIsOk (CommonBlockAttrs.parse (leU32b hd 4) (DBLKType.parse (leU32b hd 0))) &&
    exceptIsOk (StringType.parse (byteAt hd 48))

/-- The fallible field decodes of the 22-byte stream header that run
before the checksum assert: a UTF-8 id that is not a DBLK kind tag and
two in-mask attribute words. -/
def streamHeaderFieldsOk (hd : List Nat) : Bool :=
  utf8Valid (idLEBytes hd) && !(isDBLKTag (idLEBytes hd)) &&
    (leU16b hd 4 &&& fsAttrMask == leU16b hd 4) &&
    (leU16b hd 6 &&& mfAttrMask == leU16b hd 6)

end MTF

deriving instance DecidableEq for Except

namespace MTF

/-! Helper lemmas. -/

set_option maxRecDepth 8000

theorem buildStep_skip (p : Payload) (outer : Nat) (st : ScanState) (i : Nat)
    (h : p.ptrAt i = none) : buildStep p outer (.ok st) i = .ok st := by
  simp [buildStep, buildStep1, h]

theorem foldl_buildStep_skip (p : Payload) (outer : Nat) (l : List Nat)
    (h : ∀ i ∈ l, p.ptrAt i = none) (st : ScanState) :
    l.foldl (buildStep p outer) (.ok st) = .ok st := by
  induction l with
  | nil => rfl
  | cons a t ih =>
    rw [List.foldl_cons, buildStep_skip p outer st a (h a (by simp))]
    exact ih (fun i hi => h i (by simp [hi]))

/-- Scan of a payload whose only initialised page is page 0: the loop
skips every other page and only the final `write_entry` runs. -/
theorem buildScan_single (p : Payload) (pp : PagePointer)
    (h0 : p.ptrAt 0 = some pp) (h : ∀ i, 1 ≤ i → p.ptrAt i = none) :
    buildScan p =
      match write_entry (p.len / PAGE_SIZE / DIVISOR) DIVISOR [] [] pp pp 0 with
      | .error e => .error e
      | .ok (idx, maxp) => .ok ⟨idx, p.len / PAGE_SIZE / DIVISOR, DIVISOR, maxp⟩ := by
  unfold buildScan
  simp only [h0]
  rw [foldl_buildStep_skip p _ _ (fun i hi => h i (List.mem_range'_1.mp hi).1)]

theorem foldl_buildStep_err (p : Payload) (outer : Nat) (l : List Nat) (e : PErr) :
    l.foldl (buildStep p outer) (.error e) = .error e := by
  induction l with
  | nil => rfl
  | cons a t ih => rw [List.foldl_cons]; exact ih

/-- Scan of a payload whose initialised pages are pages 0 and 1: the
loop degenerates to the single step at `i = 1` followed by the final
`write_entry`. -/
theorem buildScan_pair (p : Payload) (a : PagePointer)
    (h0 : p.ptrAt 0 = some a) (h : ∀ i, 2 ≤ i → p.ptrAt i = none)
    (hn : 2 ≤ p.len / PAGE_SIZE) :
    buildScan p =
      match buildStep p (p.len / PAGE_SIZE / DIVISOR) (.ok ⟨[], [], a, a, 0⟩) 1 with
      | .error e => .error e
      | .ok st =>
        match write_entry (p.len / PAGE_SIZE / DIVISOR) DIVISOR st.idx st.maxp st.start
            st.old st.start_idx with
        | .error e => .error e
        | .ok (idx, maxp) => .ok ⟨idx, p.len / PAGE_SIZE / DIVISOR, DIVISOR, maxp⟩ := by
  unfold buildScan
  simp only [h0]
  have hr : List.range' 1 (p.len / PAGE_SIZE - 1) =
      1 :: List.range' 2 (p.len / PAGE_SIZE - 2) := by
    have h2 : p.len / PAGE_SIZE - 1 = (p.len / PAGE_SIZE - 2) + 1 := by omega
    rw [h2, List.range'_succ]
  rw [hr, List.foldl_cons]
  cases hst : buildStep p (p.len / PAGE_SIZE / DIVISOR) (.ok ⟨[], [], a, a, 0⟩) 1 with
  | error e => rw [foldl_buildStep_err]
  | ok st => rw [foldl_buildStep_skip p _ _ (fun i hi => h i (List.mem_range'_1.mp hi).1)]

theorem build_payloadBucket1 : MTFBackupIndex.build payloadBucket1 = .ok indexBucket1 := by
  unfold MTFBackupIndex.build
  rw [if_neg (by norm_num [payloadBucket1, PAGE_SIZE])]
  rw [buildScan_single payloadBucket1 ⟨1, 1500⟩ rfl (fun i hi => by
    simp only [payloadBucket1]
    rw [if_neg (by omega)])]
  decide

theorem build_payload1025 : MTFBackupIndex.build payload1025 = .ok index1025 := by
  unfold MTFBackupIndex.build
  rw [if_neg (by norm_num [payload1025, PAGE_SIZE])]
  rw [buildScan_single payload1025 ⟨1, 0⟩ rfl (fun i hi => by
    simp only [payload1025]
    rw [if_neg (by omega)])]
  decide

theorem build_payloadSparse : MTFBackupIndex.build payloadSparse = .error .panic := by
  unfold MTFBackupIndex.build
  rw [if_neg (by norm_num [payloadSparse, PAGE_SIZE])]
  rw [buildScan_single payloadSparse ⟨1, 5000⟩ rfl (fun i hi => by
    simp only [payloadSparse]
    rw [if_neg (by omega)])]
  decide

theorem growTo_inv (outer divisor fid : Nat) (idx : List (List (List IndexEntry)))
    (maxp : List (Nat × Nat)) (h : BuildInv outer divisor idx maxp) :
    BuildInv outer divisor (growTo idx fid outer) maxp ∧
      fid ≤ (growTo idx fid outer).length ∧ idx.length ≤ (growTo idx fid outer).length := by
  obtain ⟨h1, h2, h3⟩ := h
  have hmem : ∀ oe ∈ growTo idx fid outer, oe ∈ idx ∨ oe = List.replicate outer [] := by
    intro oe hoe
    rcases List.mem_append.mp hoe with h | h
    · exact Or.inl h
    · exact Or.inr (List.eq_of_mem_replicate h)
  have hlen : (growTo idx fid outer).length = idx.length + (fid - idx.length) := by
    simp [growTo]
  refine ⟨⟨?_, ?_, ?_⟩, by omega, by omega⟩
  · intro oe hoe
    rcases hmem oe hoe with h | h
    · exact h1 oe h
    · simp [h]
  · intro q hq
    have := h2 q hq
    omega
  · intro oe hoe b bucket hb e he
    rcases hmem oe hoe with h | h
    · exact h3 oe h b bucket hb e he
    · subst h
      rcases List.get?_eq_some.mp hb with ⟨hlt, hget⟩
      rw [List.get_replicate] at hget
      subst hget
      cases he

theorem write_entry_inv (outer divisor : Nat) (idx : List (List (List IndexEntry)))
    (maxp : List (Nat × Nat)) (startP endP : PagePointer) (start_idx : Nat)
    (idx' : List (List (List IndexEntry))) (maxp' : List (Nat × Nat))
    (hw : write_entry outer divisor idx maxp startP endP start_idx = .ok (idx', maxp'))
    (h : BuildInv outer divisor idx maxp) : BuildInv outer divisor idx' maxp' := by
  unfold write_entry at hw
  split at hw
  · cases hw
  · obtain ⟨⟨g1, g2, g3⟩, gfid, glen⟩ := growTo_inv outer divisor endP.file_id idx maxp h
    generalize hidx₁ : growTo idx endP.file_id outer = idx₁ at hw g1 g2 g3 gfid glen
    split at hw
    · cases hw
    · rename_i oe hoe
      split at hw
      · cases hw
      · rename_i bucket hbucket
        injection hw with hw
        injection hw with hw1 hw2
        subst hw1
        subst hw2
        have hoemem : oe ∈ idx₁ := List.get?_mem hoe
        have hoelen : oe.length = outer := g1 oe hoemem
        have hmem : ∀ x ∈ idx₁.set (endP.file_id - 1)
            (oe.set (startP.page_id / divisor)
              (bucket ++ [⟨startP.page_id, endP.page_id, start_idx⟩])),
            x ∈ idx₁ ∨ x = oe.set (startP.page_id / divisor)
              (bucket ++ [⟨startP.page_id, endP.page_id, start_idx⟩]) :=
          fun x hx => List.mem_or_eq_of_mem_set hx
        refine ⟨?_, ?_, ?_⟩
        · intro x hx
          rcases hmem x hx with hh | hh
          · exact g1 x hh
          · rw [hh, List.length_set]
            exact hoelen
        · intro q hq
          rw [List.length_set]
          unfold maxpUpdate at hq
          split at hq
          · rcases List.mem_map.mp hq with ⟨q₀, hq₀, hqeq⟩
            have := g2 q₀ hq₀
            by_cases hc : q₀.1 = endP.file_id
            · rw [if_pos hc] at hqeq
              subst hqeq
              simpa using this
            · rw [if_neg hc] at hqeq
              subst hqeq
              exact this
          · rcases List.mem_append.mp hq with hh | hh
            · exact g2 q hh
            · rcases List.mem_singleton.mp hh with rfl
              exact gfid
        · intro x hx b bkt hb e he
          rcases hmem x hx with hh | hh
          · exact g3 x hh b bkt hb e he
          · subst hh
            by_cases hc : b = startP.page_id / divisor
            · subst hc
              have hblt : startP.page_id / divisor < oe.length := by
                rcases List.get?_eq_some.mp hbucket with ⟨hlt, _⟩
                exact hlt
              rw [List.get?_set_eq_of_lt _ hblt] at hb
              injection hb with hb
              subst hb
              rcases List.mem_append.mp he with hh | hh
              · exact g3 oe hoemem _ bucket hbucket e hh
              · rcases List.mem_singleton.mp hh with rfl
                rfl
            · rw [List.get?_set_ne _ _ (fun hcc => hc hcc.symm)] at hb
              exact g3 oe hoemem b bkt hb e he

theorem buildStep1_inv (p : Payload) (outer : Nat) (st st' : ScanState) (i : Nat)
    (hs : buildStep1 p outer st i = .ok st')
    (h : BuildInv outer DIVISOR st.idx st.maxp) :
    BuildInv outer DIVISOR st'.idx st'.maxp := by
  unfold buildStep1 at hs
  split at hs
  · injection hs with hs
    subst hs
    exact h
  · split at hs
    · split at hs
      · cases hs
      · rename_i idx' maxp' hw
        injection hs with hs
        subst hs
        exact write_entry_inv _ _ _ _ _ _ _ _ _ hw h
    · split at hs
      · cases hs
      · split at hs
        · split at hs
          · cases hs
          · rename_i idx' maxp' hw
            injection hs with hs
            subst hs
            exact write_entry_inv _ _ _ _ _ _ _ _ _ hw h
        · injection hs with hs
          subst hs
          exact h

theorem foldl_buildStep_inv (p : Payload) (outer : Nat) (l : List Nat) :
    ∀ st st' : ScanState, l.foldl (buildStep p outer) (.ok st) = .ok st' →
      BuildInv outer DIVISOR st.idx st.maxp → BuildInv outer DIVISOR st'.idx st'.maxp := by
  induction l with
  | nil =>
    intro st st' hf h
    rw [List.foldl_nil] at hf
    injection hf with hf
    subst hf
    exact h
  | cons a t ih =>
    intro st st' hf h
    rw [List.foldl_cons] at hf
    cases hs : buildStep1 p outer st a with
    | error e =>
      rw [show buildStep p outer (.ok st) a = buildStep1 p outer st a from rfl, hs,
        foldl_buildStep_err] at hf
      cases hf
    | ok st₁ =>
      rw [show buildStep p outer (.ok st) a = buildStep1 p outer st a from rfl, hs] at hf
      exact ih st₁ st' hf (buildStep1_inv p outer st st₁ a hs h)

theorem build_payloadS6big : MTFBackupIndex.build payloadS6big = .ok indexS6 := by
  unfold MTFBackupIndex.build
  rw [if_neg (by norm_num [payloadS6big, PAGE_SIZE])]
  rw [buildScan_pair payloadS6big ⟨1, 7⟩ rfl (fun i hi => by
    simp only [payloadS6big]
    rw [if_neg (by omega), if_neg (by omega)]) (by norm_num [payloadS6big, PAGE_SIZE])]
  decide

/-! Claim theorems for the index (C1, C3, C6, C9). -/

/-- Claim C1, counterexample: for the payload of exactly two
8192-byte pages `(1,7)` and `(1,8)` the build does not succeed — it
panics, because `cache_name` unconditionally slices
`data[..10 * PAGE_SIZE]` out of a 16384-byte payload (and, past that,
`num_pages / DIVISOR = 0` would leave no bucket slot to push the run
into). -/
theorem c1_counterexample : MTFBackupIndex.build payloadS6 = .error .panic := by
  decide

/-- Claim C1, amended: embed the two pages `(1,7)`, `(1,8)` at the
start of a payload large enough for the build to run (1024 pages, the
rest uninitialised).  Then the build succeeds and produces the single
IndexEntry `{start 7, stop 8, base 0}`, and lookup returns `some 0`
for `(1,7)`, `some 1` for `(1,8)`, `none` for `(1,9)` and `none` for
`(1,6)`. -/
theorem c1_amended_minimal_index :
    MTFBackupIndex.build payloadS6big = .ok indexS6 ∧
    indexS6.idx = [[[⟨7, 8, 0⟩]]] ∧
    indexS6.lookup ⟨1, 7⟩ = .ok (some 0) ∧
    indexS6.lookup ⟨1, 8⟩ = .ok (some 1) ∧
    indexS6.lookup ⟨1, 9⟩ = .ok none ∧
    indexS6.lookup ⟨1, 6⟩ = .ok none :=
  ⟨build_payloadS6big, by decide, by decide, by decide, by decide, by decide⟩

/-- Claim C3: the code does not return "not found" when the starting
bucket and every bucket below it are empty — `outer_idx -= 1`
underflows at bucket 0 and the query panics.  Evaluated at the index
the code itself builds over `payloadBucket1` (whose only run lives in
bucket 1 of file 1): the query `(1, 100)` starts at the empty bucket 0
and panics, and the query `(1, 5000)` starts at the out-of-range
bucket 4 and panics on the indexing itself. -/
theorem c3_lookup_panics :
    MTFBackupIndex.build payloadBucket1 = .ok indexBucket1 ∧
    indexBucket1.lookup ⟨1, 100⟩ = .error .panic ∧
    indexBucket1.lookup ⟨1, 5000⟩ = .error .panic :=
  ⟨build_payloadBucket1, by decide, by decide⟩

/-- Claim C6, counterexample: the outer bucket vectors have
`floor(num_pages / 1024)` slots, not `ceil(num_pages / 1024)`: over a
1025-page payload the built bucket vector has 1 slot while the ceiling
is 2; and the bucket index of an indexed page is not always in range —
over a 1024-page payload (1 slot) whose single page has the sparse id
`(1, 5000)`, build itself panics on bucket index 4. -/
theorem c6_counterexample :
    (MTFBackupIndex.build payload1025 = .ok index1025 ∧
      index1025.idx.map List.length = [1] ∧
      (payload1025.len / PAGE_SIZE + DIVISOR - 1) / DIVISOR = 2) ∧
    MTFBackupIndex.build payloadSparse = .error .panic :=
  ⟨⟨build_payload1025, by decide, by norm_num [payload1025, PAGE_SIZE, DIVISOR]⟩,
    build_payloadSparse⟩

/-- Claim C6, amended: after a successful build every outer bucket
vector has exactly `floor(num_pages / 1024)` slots, every file id
recorded in `max_page_ids` is at most `idx.len()`, and every entry
recorded during the build sits in the in-range bucket
`start.page_id / 1024` (sparse page ids whose bucket would be out of
range make the build panic instead, as the counterexample shows). -/
theorem c6_amended_bucket_invariants (p : Payload) (S : MTFBackupIndex)
    (h : MTFBackupIndex.build p = .ok S) :
    S.outer_level_entries = p.len / PAGE_SIZE / DIVISOR ∧
    S.divisor = DIVISOR ∧
    (∀ oe ∈ S.idx, oe.length = S.outer_level_entries) ∧
    (∀ q ∈ S.max_page_ids, q.1 ≤ S.idx.length) ∧
    (∀ oe ∈ S.idx, ∀ b bucket, oe.get? b = some bucket →
      ∀ e ∈ bucket, e.start / S.divisor = b ∧ b < S.outer_level_entries) := by
  unfold MTFBackupIndex.build at h
  split at h
  · cases h
  · unfold buildScan at h
    simp only [] at h
    split at h
    · cases h
    · rename_i start0 h0
      split at h
      · cases h
      · rename_i st hfold
        split at h
        · cases h
        · rename_i idxF maxpF hw
          injection h with h
          subst h
          have hInv0 : BuildInv (p.len / PAGE_SIZE / DIVISOR) DIVISOR [] [] :=
            ⟨by simp, by simp, by simp⟩
          have hInv1 := foldl_buildStep_inv p (p.len / PAGE_SIZE / DIVISOR) _ _ st hfold hInv0
          have hInv2 := write_entry_inv _ _ _ _ _ _ _ _ _ hw hInv1
          obtain ⟨g1, g2, g3⟩ := hInv2
          refine ⟨rfl, rfl, g1, g2, ?_⟩
          intro oe hoe b bucket hb e he
          refine ⟨g3 oe hoe b bucket hb e he, ?_⟩
          have hlen := g1 oe hoe
          rcases List.get?_eq_some.mp hb with ⟨hlt, _⟩
          exact hlen ▸ hlt

/-- Witness for `c6_amended_bucket_invariants` at the concrete build
over `payloadS6big`. -/
theorem c6_amended_bucket_invariants_witness :
    indexS6.outer_level_entries = payloadS6big.len / PAGE_SIZE / DIVISOR ∧
    indexS6.divisor = DIVISOR ∧
    (∀ oe ∈ indexS6.idx, oe.length = indexS6.outer_level_entries) ∧
    (∀ q ∈ indexS6.max_page_ids, q.1 ≤ indexS6.idx.length) ∧
    (∀ oe ∈ indexS6.idx, ∀ b bucket, oe.get? b = some bucket →
      ∀ e ∈ bucket, e.start / indexS6.divisor = b ∧ b < indexS6.outer_level_entries) :=
  c6_amended_bucket_invariants payloadS6big indexS6 build_payloadS6big

/-- Claim C9: any payload shorter than `10 * PAGE_SIZE = 81920` bytes
makes `MTFBackupIndex::build` fail on the out-of-range
`data[..10 * PAGE_SIZE]` slice of `cache_name`, before any page is
scanned. -/
theorem c9_build_needs_ten_pages (p : Payload) (h : p.len < 10 * PAGE_SIZE) :
    MTFBackupIndex.build p = .error .panic := by
  unfold MTFBackupIndex.build
  rw [if_pos h]

/-- Witness for `c9_build_needs_ten_pages` at the empty payload. -/
theorem c9_build_needs_ten_pages_witness :
    payloadNil.len < 10 * PAGE_SIZE ∧ MTFBackupIndex.build payloadNil = .error .panic :=
  ⟨by decide, c9_build_needs_ten_pages payloadNil (by decide)⟩

/-! Checksum and word-list lemmas. -/

theorem xorAll_cons (a : Nat) (l : List Nat) : xorAll (a :: l) = a ^^^ xorAll l := rfl

theorem shiftRegister_fst (ws : List Nat) : ∀ c w : Nat, ws ≠ [] →
    (shiftRegister c w ws).1 = c ^^^ (w ^^^ xorAll ws.dropLast) := by
  induction ws with
  | nil => intro c w h; exact absurd rfl h
  | cons a t ih =>
    intro c w _
    cases t with
    | nil => simp [shiftRegister, xorAll]
    | cons b t2 =>
      rw [show shiftRegister c w (a :: b :: t2) = shiftRegister (c ^^^ w) a (b :: t2)
        from rfl]
      rw [ih (c ^^^ w) a (by simp)]
      rw [show (a :: b :: t2).dropLast = a :: (b :: t2).dropLast from rfl]
      rw [xorAll_cons, Nat.xor_assoc]

/-- The shift-register loop computes the XOR of all words but the
last. -/
theorem shiftChecksum_eq_xorAll_dropLast (hd : List Nat) (h : leWords hd ≠ []) :
    shiftChecksum hd = xorAll (leWords hd).dropLast := by
  unfold shiftChecksum
  rw [shiftRegister_fst _ 0 0 h]
  simp

theorem leWords_length (b : List Nat) : (leWords b).length = b.length / 2 := by
  induction b using leWords.induct with
  | case1 b0 b1 rest ih => simp [leWords, ih]; omega
  | case2 b h =>
    cases b with
    | nil => rfl
    | cons x t =>
      cases t with
      | nil => simp [leWords]
      | cons y t2 => exact absurd rfl (h x y t2)

theorem dropLast_eq_take_of_length (l : List Nat) :
    ∀ n, l.length = n + 1 → l.dropLast = l.take n := by
  induction l with
  | nil => intro n h; cases h
  | cons a t ih =>
    intro n h
    cases t with
    | nil =>
      have : n = 0 := by simpa using h
      subst this
      rfl
    | cons b t2 =>
      cases n with
      | zero => simp at h
      | succ m =>
        rw [show (a :: b :: t2).dropLast = a :: (b :: t2).dropLast from rfl,
          List.take_cons_succ, ih m (by simpa using h)]

/-! Stream codec lemmas. -/

theorem readBytes_some (data : List Nat) (pos n : Nat) (bs : List Nat)
    (h : readBytes data pos n = some bs) :
    pos + n ≤ data.length ∧ bs = (data.drop pos).take n := by
  unfold readBytes at h
  split at h
  · injection h with h
    exact ⟨by assumption, h.symm⟩
  · cases h

theorem Stream.parse_ok_some (data : List Nat) (pos : Nat) (s : Stream) (p : Nat)
    (h : Stream.parse data pos = .ok (some s, p)) :
    p = pos + 22 ∧ pos + 22 ≤ data.length ∧ s.base = pos + 22 := by
  unfold Stream.parse at h
  split at h
  · cases h
  · rename_i hd hrd
    have hb := readBytes_some data pos 22 hd hrd
    simp only [] at h
    split at h
    · cases h
    · split at h
      · cases h
      · split at h
        · cases h
        · split at h
          · cases h
          · split at h
            · cases h
            · injection h with h
              injection h with h1 h2
              subst h2
              cases h1
              exact ⟨rfl, hb.1, rfl⟩

theorem Stream.parse_ok_none (data : List Nat) (pos : Nat) (p : Nat)
    (h : Stream.parse data pos = .ok (none, p)) : p = pos := by
  unfold Stream.parse at h
  split at h
  · cases h
  · simp only [] at h
    split at h
    · cases h
    · split at h
      · injection h with h
        injection h with h1 h2
        exact h2.symm
      · split at h
        · cases h
        · split at h
          · cases h
          · split at h
            · cases h
            · injection h with h
              injection h with h1 h2
              cases h1

/-- Ids equal to a DBLK kind tag are valid UTF-8 (they are ASCII). -/
theorem utf8Valid_of_tag (id : List Nat) (h : isDBLKTag id = true) :
    utf8Valid id = true := by
  unfold isDBLKTag at h
  simp only [decide_eq_true_eq] at h
  rcases h with h | h | h | h | h | h | h | h | h | h <;> subst h <;> decide

/-! Claim theorems for the stream codec (C2, C8, C10). -/

/-- Claim C2, counterexample: at pre-header position 0 (4-byte
aligned) a stream of length 5 advances the cursor by 28 bytes and not
by the claimed `22 + 5 + ((4 - 5 % 4) mod 4) = 30` — the sentinel that
terminates `parse_all` is recognised at offset 28. -/
theorem c2_counterexample :
    Stream.parse streamBytes50 0 = .ok (some mqdaStream, 22) ∧
    mqdaStream.header.length = 5 ∧
    Stream.parseAll streamBytes50 0 = .ok ([], 28) ∧
    ¬ (28 - 0 = 22 + 5 + ((4 - 5 % 4) % 4)) :=
  ⟨by decide, by decide, by decide, by decide⟩

/-- Claim C2, amended: after parsing a non-sentinel stream at
pre-header position `pos`, the loop of `Stream::parse_all` continues
at `nextStreamPos (pos + 22) length`, i.e. the cursor advances
`22 + length + ((4 - (pos + 22 + length) mod 4) mod 4)` bytes — the
padding rounds the absolute position up to 4-byte alignment.  This
equals the claimed `22 + length + ((4 - length mod 4) mod 4)` exactly
when `pos ≡ 2 (mod 4)`, not for every starting alignment. -/
theorem c2_amended_stream_advance :
    (∀ data pos s p fuel acc, Stream.parse data pos = .ok (some s, p) →
      ¬ (s.header.id = tagSPAD) →
      ¬ (nextStreamPos (pos + 22) s.header.length = pos + 22) →
      Stream.parseAllAux data (fuel + 1) pos acc =
        Stream.parseAllAux data fuel (nextStreamPos (pos + 22) s.header.length)
          (acc ++ [s])) ∧
    (∀ pos L, nextStreamPos (pos + 22) L = pos + 22 + L + ((4 - (pos + 22 + L) % 4) % 4)) ∧
    (∀ pos L, pos % 4 = 2 →
      nextStreamPos (pos + 22) L = pos + 22 + L + ((4 - L % 4) % 4)) := by
  refine ⟨?_, ?_, ?_⟩
  · intro data pos s p fuel acc hp hspad hprog
    obtain ⟨hp22, _, _⟩ := Stream.parse_ok_some data pos s p hp
    subst hp22
    conv_lhs => rw [Stream.parseAllAux]
    rw [hp]
    simp only [nextStreamPos] at hprog ⊢
    rw [if_neg hprog, if_neg hspad]
  · intro pos L
    unfold nextStreamPos
    simp only []
    by_cases h4 : (pos + 22 + L) % 4 > 0
    · rw [if_pos h4]; omega
    · rw [if_neg h4]; omega
  · intro pos L h
    unfold nextStreamPos
    simp only []
    by_cases h4 : (pos + 22 + L) % 4 > 0
    · rw [if_pos h4]; omega
    · rw [if_neg h4]; omega

/-- Witness for `c2_amended_stream_advance` at `streamBytes50`:
`Stream::parse_all` starts with fuel 72 there, so the first loop
iteration is the instance `fuel = 71`. -/
theorem c2_amended_stream_advance_witness :
    Stream.parseAllAux streamBytes50 (71 + 1) 0 [] =
      Stream.parseAllAux streamBytes50 71 (nextStreamPos (0 + 22) mqdaStream.header.length)
        ([] ++ [mqdaStream]) ∧
    nextStreamPos (0 + 22) 5 = 0 + 22 + 5 + ((4 - (0 + 22 + 5) % 4) % 4) ∧
    nextStreamPos (2 + 22) 5 = 2 + 22 + 5 + ((4 - 5 % 4) % 4) :=
  ⟨c2_amended_stream_advance.1 streamBytes50 0 mqdaStream 22 71 [] (by decide) (by decide)
      (by decide),
    c2_amended_stream_advance.2.1 0 5,
    c2_amended_stream_advance.2.2 2 5 (by decide)⟩

/-- Claim C8: a 22-byte stream header whose id is a DBLK kind tag
(e.g. `VOLB`) makes `Stream::parse` rewind the cursor to the
pre-header position and return no stream, and `Stream::parse_all`
yields zero streams with the cursor left exactly there (no net advance
over the 22 bytes). -/
theorem c8_stream_sentinel (data : List Nat) (pos : Nat)
    (h22 : pos + 22 ≤ data.length)
    (htag : isDBLKTag (idLEBytes ((data.drop pos).take 22)) = true) :
    Stream.parse data pos = .ok (none, pos) ∧
    Stream.parseAll data pos = .ok ([], pos) := by
  have hparse : Stream.parse data pos = .ok (none, pos) := by
    unfold Stream.parse
    rw [show readBytes data pos 22 = some ((data.drop pos).take 22) from by
      unfold readBytes; rw [if_pos h22]]
    simp only []
    rw [if_neg (by rw [utf8Valid_of_tag _ htag]; simp), if_pos htag]
  refine ⟨hparse, ?_⟩
  unfold Stream.parseAll
  rw [show data.length + 22 - pos = (data.length + 21 - pos) + 1 from by omega]
  unfold Stream.parseAllAux
  rw [hparse]

/-- Witness for `c8_stream_sentinel` at a lone `VOLB` block. -/
theorem c8_stream_sentinel_witness :
    Stream.parse volbBytes22 0 = .ok (none, 0) ∧
    Stream.parseAll volbBytes22 0 = .ok ([], 0) :=
  c8_stream_sentinel volbBytes22 0 (by decide) (by decide)

/-- Claim C10: when the stream loop meets a sentinel header it
returns `Ok(Vec::new())` — the empty list — whatever streams the
accumulator already holds, discarding them; concretely, over
`streamBytes50` the stream parsed at offset 0 is discarded when the
`VOLB` sentinel appears at offset 28, and `parse_all` returns the
empty list. -/
theorem c10_sentinel_discards :
    (∀ data pos fuel acc, Stream.parse data pos = .ok (none, pos) →
      Stream.parseAllAux data (fuel + 1) pos acc = .ok ([], pos)) ∧
    Stream.parseAll streamBytes50 0 = .ok ([], 28) := by
  constructor
  · intro data pos fuel acc h
    unfold Stream.parseAllAux
    rw [h]
  · decide

/-- Witness for `c10_sentinel_discards` with a non-empty accumulator:
the collected stream of `streamBytes50` is dropped. -/
theorem c10_sentinel_discards_witness :
    Stream.parse streamBytes50 28 = .ok (none, 28) ∧
    Stream.parseAllAux streamBytes50 (43 + 1) 28 [mqdaStream] = .ok ([], 28) :=
  ⟨by decide, c10_sentinel_discards.1 streamBytes50 28 43 [mqdaStream] (by decide)⟩

/-! Claim theorems for the checksum (C4), error propagation (C5) and
the SFMB dependency (C7). -/

theorem exceptIsOk_iff {ε α : Type} (x : Except ε α) :
    exceptIsOk x = true ↔ ∃ v, x = .ok v := by
  cases x with
  | ok v => simp [exceptIsOk]
  | error e => simp [exceptIsOk]

/-- Claim C4: the shift-register loop over a 52-byte (resp. 22-byte)
header computes the XOR of the first 25 (resp. 10) little-endian
16-bit words of its 26 (resp. 11), never folding in the stored
checksum word; `DBLK::parse` succeeds only when that value equals the
word at offset 50, `Stream::parse` yields a stream only when it equals
the word at offset 20, and a mismatch with otherwise-valid header
fields is a fatal error (panic). -/
theorem c4_checksum_shift_register :
    (∀ hd : List Nat, hd.length = 52 →
      (leWords hd).length = 26 ∧ shiftChecksum hd = xorAll ((leWords hd).take 25)) ∧
    (∀ hd : List Nat, hd.length = 22 →
      (leWords hd).length = 11 ∧ shiftChecksum hd = xorAll ((leWords hd).take 10)) ∧
    (∀ data pos sets out, DBLK.parse data pos sets = .ok out →
      leU16b ((data.drop pos).take 52) 50 = shiftChecksum ((data.drop pos).take 52)) ∧
    (∀ data pos s p, Stream.parse data pos = .ok (some s, p) →
      leU16b ((data.drop pos).take 22) 20 = shiftChecksum ((data.drop pos).take 22)) ∧
    (∀ data pos sets, pos + 52 ≤ data.length →
      dblkHeaderFieldsOk ((data.drop pos).take 52) = true →
      ¬ (leU16b ((data.drop pos).take 52) 50 = shiftChecksum ((data.drop pos).take 52)) →
      DBLK.parse data pos sets = .error .panic) ∧
    (∀ data pos, pos + 22 ≤ data.length →
      streamHeaderFieldsOk ((data.drop pos).take 22) = true →
      ¬ (leU16b ((data.drop pos).take 22) 20 = shiftChecksum ((data.drop pos).take 22)) →
      Stream.parse data pos = .error .panic) := by
  have hwords : ∀ (hd : List Nat) (n : Nat), hd.length = 2 * n + 2 →
      (leWords hd).length = n + 1 ∧ shiftChecksum hd = xorAll ((leWords hd).take n) := by
    intro hd n hlen
    have hl : (leWords hd).length = n + 1 := by
      rw [leWords_length, hlen]
      omega
    refine ⟨hl, ?_⟩
    rw [shiftChecksum_eq_xorAll_dropLast hd (by
      intro hnil
      rw [hnil] at hl
      cases hl)]
    rw [dropLast_eq_take_of_length _ n hl]
  refine ⟨fun hd h => hwords hd 25 (by omega), fun hd h => hwords hd 10 (by omega),
    ?_, ?_, ?_, ?_⟩
  · intro data pos sets out h
    unfold DBLK.parse at h
    cases hrb : readBytes data pos 52 with
    | none => rw [hrb] at h; cases h
    | some hd =>
      rw [hrb] at h
      simp only [] at h
      obtain ⟨_, hslice⟩ := readBytes_some data pos 52 hd hrb
      subst hslice
      cases hattrs : CommonBlockAttrs.parse (leU32b ((data.drop pos).take 52) 4)
          (DBLKType.parse (leU32b ((data.drop pos).take 52) 0)) with
      | error e => rw [hattrs] at h; simp only [] at h; cases h
      | ok attrs =>
        rw [hattrs] at h
        simp only [] at h
        cases hst : StringType.parse (byteAt ((data.drop pos).take 52) 48) with
        | error e => rw [hst] at h; simp only [] at h; cases h
        | ok stype =>
          rw [hst] at h
          simp only [] at h
          by_cases hck : leU16b ((data.drop pos).take 52) 50 =
              shiftChecksum ((data.drop pos).take 52)
          · exact hck
          · rw [if_pos hck] at h
            cases h
  · intro data pos s p h
    unfold Stream.parse at h
    cases hrb : readBytes data pos 22 with
    | none => rw [hrb] at h; cases h
    | some hd =>
      rw [hrb] at h
      simp only [] at h
      obtain ⟨_, hslice⟩ := readBytes_some data pos 22 hd hrb
      subst hslice
      split at h
      · cases h
      · split at h
        · cases h
        · split at h
          · cases h
          · split at h
            · cases h
            · split at h
              · cases h
              · rename_i hckeq
                exact not_not.mp hckeq
  · intro data pos sets hlen hfields hne
    unfold dblkHeaderFieldsOk at hfields
    rw [Bool.and_eq_true] at hfields
    obtain ⟨ha, hs⟩ := hfields
    obtain ⟨attrs, hattrs⟩ := (exceptIsOk_iff _).mp ha
    obtain ⟨stype, hstype⟩ := (exceptIsOk_iff _).mp hs
    unfold DBLK.parse
    rw [show readBytes data pos 52 = some ((data.drop pos).take 52) from by
      unfold readBytes; rw [if_pos hlen]]
    simp only []
    rw [hattrs]
    simp only []
    rw [hstype]
    simp only []
    rw [if_pos hne]
  · intro data pos hlen hfields hne
    unfold streamHeaderFieldsOk at hfields
    rw [Bool.and_eq_true, Bool.and_eq_true, Bool.and_eq_true] at hfields
    obtain ⟨⟨⟨hid, hsent⟩, hfs⟩, hmf⟩ := hfields
    unfold Stream.parse
    rw [show readBytes data pos 22 = some ((data.drop pos).take 22) from by
      unfold readBytes; rw [if_pos hlen]]
    simp only []
    rw [if_neg (by rw [hid]; simp)]
    rw [if_neg (by simp only [Bool.not_eq_true'] at hsent; rw [hsent]; simp)]
    rw [if_neg (not_not_intro (by simpa using hfs))]
    rw [if_neg (not_not_intro (by simpa using hmf))]
    rw [if_pos hne]

/-- Witness for `c4_checksum_shift_register`: the 52- and 22-word
parts at an all-zero buffer, the success parts at the valid stream
header of `streamBytes50` and at the zero DBLK header (which parses as
UNKNOWN with a correct zero checksum), and the mismatch parts at those
headers with their checksum word corrupted to 1. -/
theorem c4_checksum_shift_register_witness :
    ((leWords (List.replicate 52 0)).length = 26 ∧
      shiftChecksum (List.replicate 52 0) =
        xorAll ((leWords (List.replicate 52 0)).take 25)) ∧
    ((leWords (List.replicate 22 0)).length = 11 ∧
      shiftChecksum (List.replicate 22 0) =
        xorAll ((leWords (List.replicate 22 0)).take 10)) ∧
    leU16b (((List.replicate 52 0 : List Nat).drop 0).take 52) 50 =
      shiftChecksum (((List.replicate 52 0 : List Nat).drop 0).take 52) ∧
    leU16b ((streamBytes50.drop 0).take 22) 20 =
      shiftChecksum ((streamBytes50.drop 0).take 22) ∧
    DBLK.parse (List.replicate 50 0 ++ [1, 0]) 0 DBLKSets.empty = .error .panic ∧
    Stream.parse (streamBytes50.take 20 ++ [0x0D, 0x10]) 0 = .error .panic := by
  refine ⟨c4_checksum_shift_register.1 (List.replicate 52 0) (by decide),
    c4_checksum_shift_register.2.1 (List.replicate 22 0) (by decide),
    c4_checksum_shift_register.2.2.1 (List.replicate 52 0) 0 DBLKSets.empty
      ⟨⟨⟨.ANY 0, 0, OS.parse 0, 0, 0, 0, 0, ⟨0, 0, 0⟩, .NO_STRINGS, 0⟩,
        .UNKNOWN [0, 0, 0, 0]⟩, 52⟩ (by decide),
    c4_checksum_shift_register.2.2.2.1 streamBytes50 0 mqdaStream 22 (by decide),
    c4_checksum_shift_register.2.2.2.2.1 (List.replicate 50 0 ++ [1, 0]) 0 DBLKSets.empty
      (by decide) (by decide) (by decide),
    c4_checksum_shift_register.2.2.2.2.2 (streamBytes50.take 20 ++ [0x0D, 0x10]) 0
      (by decide) (by decide) (by decide)⟩

/-- Claim C5, counterexample: a 52-byte header whose string-type byte
is invalid makes `DBLK::parse` return an error, but the error never
reaches the consumer as a value — `DBLKWithStreams::parse` unwraps it
into a panic (modelled `none`) and `DBLKIterator::next`, whose item
type has no error variant, panics with it. -/
theorem c5_counterexample :
    DBLK.parse badStringTypeHeader 0 DBLKSets.empty = .error (.err .badTag) ∧
    DBLKWithStreams.parse badStringTypeHeader 0 DBLKSets.empty = none ∧
    DBLKIterator.next badStringTypeHeader ⟨DBLKSets.empty, 0⟩ = none :=
  ⟨by decide, by decide, by decide⟩

/-- Claim C5, amended: an error in DBLK header or body parsing aborts
the current DBLK by panicking through `.unwrap()`; the iterator yields
no item and no error value, so the consumer cannot observe the error
and choose to continue. -/
theorem c5_amended_errors_panic (data : List Nat) (st : IterState) (e : PErr)
    (h : DBLK.parse data st.position st.sets = .error e) :
    DBLKWithStreams.parse data st.position st.sets = none ∧
    DBLKIterator.next data st = none := by
  have h1 : DBLKWithStreams.parse data st.position st.sets = none := by
    unfold DBLKWithStreams.parse
    rw [h]
  refine ⟨h1, ?_⟩
  unfold DBLKIterator.next
  rw [h1]

/-- Witness for `c5_amended_errors_panic` at the invalid string-type
header. -/
theorem c5_amended_errors_panic_witness :
    DBLKWithStreams.parse badStringTypeHeader 0 DBLKSets.empty = none ∧
    DBLKIterator.next badStringTypeHeader ⟨DBLKSets.empty, 0⟩ = none :=
  c5_amended_errors_panic badStringTypeHeader ⟨DBLKSets.empty, 0⟩ (.err .badTag) (by decide)

theorem leU32s_length (l : List Nat) : (leU32s l).length = l.length / 4 := by
  induction l using leU32s.induct with
  | case1 a b c d rest ih => simp [leU32s, ih]; omega
  | case2 l h =>
    cases l with
    | nil => rfl
    | cons a t =>
      cases t with
      | nil => simp [leU32s]
      | cons b t2 =>
        cases t2 with
        | nil => simp [leU32s]
        | cons c t3 =>
          cases t3 with
          | nil => simp [leU32s]
          | cons d t4 => exact absurd rfl (h a b c d t4)

/-- Claim C7: parsing an SFMB body with no TAPE block in context fails
with the Dependency error (after the two leading `u32` reads), and
with a TAPE block in context the entries table is framed by that
TAPE's `soft_filemark_block_size`: `512 * blocks - 60` bytes are read
and decoded as little-endian `u32` entries, `(512 * blocks - 60) / 4`
of them. -/
theorem c7_sfmb_dependency :
    (∀ data pos sets, sets.tape = none → pos + 8 ≤ data.length →
      DBLK.parseSFMB data pos sets = .error (.err .dependency)) ∧
    (∀ data pos sets tape tb, sets.tape = some tape → tape.body = .TAPE tb →
      60 ≤ 512 * tb.soft_filemark_block_size →
      pos + 8 + (512 * tb.soft_filemark_block_size - 60) ≤ data.length →
      DBLK.parseSFMB data pos sets =
        .ok (.SFMB ⟨leU32at data pos, leU32at data (pos + 4),
          leU32s ((data.drop (pos + 8)).take (512 * tb.soft_filemark_block_size - 60))⟩,
          pos + 8 + (512 * tb.soft_filemark_block_size - 60))) ∧
    (∀ l : List Nat, (leU32s l).length = l.length / 4) := by
  refine ⟨?_, ?_, leU32s_length⟩
  · intro data pos sets htape hlen
    unfold DBLK.parseSFMB
    rw [show rdU32 data pos = .ok (leU32at data pos, pos + 4) from by
      unfold rdU32; rw [if_pos (by omega)]]
    simp only []
    rw [show rdU32 data (pos + 4) = .ok (leU32at data (pos + 4), pos + 4 + 4) from by
      unfold rdU32; rw [if_pos (by omega)]]
    simp only []
    rw [htape]
  · intro data pos sets tape tb htape hbody hsz hlen
    unfold DBLK.parseSFMB
    rw [show rdU32 data pos = .ok (leU32at data pos, pos + 4) from by
      unfold rdU32; rw [if_pos (by omega)]]
    simp only []
    rw [show rdU32 data (pos + 4) = .ok (leU32at data (pos + 4), pos + 4 + 4) from by
      unfold rdU32; rw [if_pos (by omega)]]
    simp only []
    rw [htape]
    simp only []
    rw [hbody]
    simp only []
    rw [if_neg (by omega)]
    rw [show pos + 4 + 4 = pos + 8 from by omega]
    rw [show rdBytes data (pos + 8) (512 * tb.soft_filemark_block_size - 60) =
        .ok ((data.drop (pos + 8)).take (512 * tb.soft_filemark_block_size - 60),
          pos + 8 + (512 * tb.soft_filemark_block_size - 60)) from by
      unfold rdBytes readBytes
      rw [if_pos (by omega)]]

/-- Witness for `c7_sfmb_dependency`: the dependency failure on an
8-byte body with the empty context, and the framed success over a
460-byte body with a TAPE of `soft_filemark_block_size = 1` in
context (452 entry bytes, 113 entries). -/
theorem c7_sfmb_dependency_witness :
    DBLK.parseSFMB (List.replicate 8 0) 0 DBLKSets.empty = .error (.err .dependency) ∧
    DBLK.parseSFMB (List.replicate 460 0) 0 setsWithTape =
      .ok (.SFMB ⟨leU32at (List.replicate 460 0) 0, leU32at (List.replicate 460 0) 4,
        leU32s (((List.replicate 460 0 : List Nat).drop (0 + 8)).take
          (512 * tapeBody512.soft_filemark_block_size - 60))⟩,
        0 + 8 + (512 * tapeBody512.soft_filemark_block_size - 60)) :=
  ⟨c7_sfmb_dependency.1 (List.replicate 8 0) 0 DBLKSets.empty rfl (by decide),
    c7_sfmb_dependency.2.1 (List.replicate 460 0) 0 setsWithTape tapeDBLK512 tapeBody512
      rfl rfl (by decide) (by decide)⟩
